import Mathlib

/-!
A verification development of the treasury tip aggregation logic in
`packages/page-treasury/src/Tips/Tip.tsx`: the helper `isCurrentTip` and the
pure function `extractTipState`, which derives a `TipState` record from an
on-chain tip record and the list of locally known account addresses.

Modelling conventions:
* `AccountId` values are compared in the source only through their address
  strings (`toString`); an account is modelled directly by its address string.
* `Balance` / `BN` values are unsigned arbitrary-precision integers, modelled
  by `Nat`; `BN.divn(2)` truncates towards zero, which on non-negative values
  is `Nat` floor division.
* The codec `bool` field `findersFee` of the current tip shape is a wrapper
  object, which is truthy in JS regardless of the boolean it wraps; it is
  modelled by `CodecBool`, and the JS truthiness of the field read on the
  union by `Option.isSome` (the read yields `undefined`, falsy, on the
  legacy shape).
* A JS array read `xs[i]` yields `undefined` out of bounds, and the method
  call the source performs on such a result then throws; computations that
  can fail at runtime are embedded in `Option`, with `none` standing for a
  runtime failure.
* `Array.prototype.sort` with the comparator `(a, b) => a.cmp(b)` reorders
  the array ascending; on natural numbers the ascending reordering is unique,
  and it is modelled by insertion sort.
-/

abbrev AccountId := String

abbrev Balance := Nat

abbrev BlockNumber := Nat

/-- A codec `bool` value: a wrapper object around a boolean. As a JS object
it is truthy no matter which boolean it wraps. -/
structure CodecBool where
  val : Bool
deriving DecidableEq

/-- The current on-chain tip shape (`OpenTip`): dedicated `finder` and
`deposit` fields plus a `findersFee` flag. -/
structure OpenTip where
  who : AccountId
  reason : String
  closes : Option BlockNumber
  finder : AccountId
  deposit : Balance
  findersFee : CodecBool
  tips : List (AccountId × Balance)
deriving DecidableEq

/-- The legacy on-chain tip shape (`OpenTipTo225`): an optional
`(finder, deposit)` pair and no `findersFee` field. -/
structure OpenTipTo225 where
  who : AccountId
  reason : String
  closes : Option BlockNumber
  finder : Option (AccountId × Balance)
  tips : List (AccountId × Balance)
deriving DecidableEq

/-- The union type `OpenTip | OpenTipTo225` of the source. -/
inductive TipRecord where
  | current (t : OpenTip)
  | legacy (t : OpenTipTo225)
deriving DecidableEq

/-- The `closes` field, shared by both shapes. `tip.closes.unwrapOr(null)`
maps a codec `Option` to the value or `null`; both are `Option` here. -/
def TipRecord.closes : TipRecord → Option BlockNumber
  | .current t => t.closes
  | .legacy t => t.closes

/-- The `tips` contribution sequence, shared by both shapes. -/
def TipRecord.tips : TipRecord → List (AccountId × Balance)
  | .current t => t.tips
  | .legacy t => t.tips

/-- The field read `(tip as OpenTip)?.findersFee` on the union: the codec
`bool` object on the current shape, `undefined` (`none`) on the legacy
shape. -/
def TipRecord.findersFeeField : TipRecord → Option CodecBool
  | .current t => some t.findersFee
  | .legacy _ => none

/-- `isCurrentTip`: `!!(tip as OpenTip)?.findersFee`. A present codec `bool`
is a wrapper object and hence truthy whatever boolean it wraps, while
`undefined` is falsy, so the double negation tests presence of the field. -/
def isCurrentTip (tip : TipRecord) : Bool :=
  tip.findersFeeField.isSome

/-- The derived `TipState` record returned by `extractTipState`. -/
structure TipState where
  closesAt : Option BlockNumber
  deposit : Option Balance
  finder : Option AccountId
  isFinder : Bool
  isTipped : Bool
  isTipper : Bool
  median : Balance
deriving DecidableEq

/-- The finder / deposit extraction of `extractTipState`: both start as
`null`; on the current shape (as classified by `isCurrentTip`) they come
from the dedicated fields, otherwise from the legacy optional pair when it
is present. -/
def extractFinderDeposit (tip : TipRecord) : Option AccountId × Option Balance :=
  if isCurrentTip tip then
    match tip with
    | .current t => (some t.finder, some t.deposit)
    | .legacy _ => (none, none)
  else
    match tip with
    | .legacy t =>
      match t.finder with
      | some finderInfo => (some finderInfo.1, some finderInfo.2)
      | none => (none, none)
    | .current _ => (none, none)

/-- `values.sort((a, b) => a.cmp(b))`: the ascending reordering of the
values, modelled by insertion sort. -/
def jsSortAsc (l : List Nat) : List Nat :=
  l.insertionSort (· ≤ ·)

/-- A JS array read `xs[i]`: the element when `i` is in bounds, `undefined`
(`none`) otherwise. The source computes the index `midIndex - 1`, which
could a priori be negative, so the index is taken as an integer. -/
def jsIndex (xs : List Nat) (i : Int) : Option Nat :=
  if h : 0 ≤ i ∧ i.toNat < xs.length then some (xs.get ⟨i.toNat, h.2⟩) else none

/-- The median computation of `extractTipState` on the mapped amounts:
`values = tips.map(([, value]) => value).sort((a, b) => a.cmp(b))`,
`midIndex = Math.floor(values.length / 2)`, and then
`values.length ? values.length % 2 ? values[midIndex]
 : values[midIndex - 1].add(values[midIndex]).divn(2) : BN_ZERO`.
A `none` result embeds a runtime failure (a method call on `undefined`
after an out-of-bounds read). -/
def computeMedian (amounts : List Nat) : Option Nat :=
  let values := jsSortAsc amounts
  let midIndex := values.length / 2
  if values.length ≠ 0 then
    if values.length % 2 ≠ 0 then
      jsIndex values (midIndex : Int)
    else
      match jsIndex values ((midIndex : Int) - 1), jsIndex values (midIndex : Int) with
      | some a, some b => some ((a + b) / 2)
      | _, _ => none
  else
    some 0

/-- `extractTipState (tip, allAccounts)`, the embedding of the source
function; `none` stands for a runtime failure inside the median
computation. -/
def extractTipState (tip : TipRecord) (allAccounts : List String) : Option TipState :=
  let closesAt := tip.closes
  let fd := extractFinderDeposit tip
  match computeMedian (tip.tips.map fun p => p.2) with
  | none => none
  | some median =>
    some {
      closesAt := closesAt
      deposit := fd.2
      finder := fd.1
      isFinder :=
        match fd.1 with
        | some f => allAccounts.contains f
        | none => false
      isTipped := (jsSortAsc (tip.tips.map fun p => p.2)).length != 0
      isTipper := tip.tips.any fun p => allAccounts.contains p.1
      median := median }

/-- Reference median, following the words of the spec: with the amounts
sorted ascending into `v` of length `n`, the median is `v[floor(n/2)]` when
`n` is odd, and `floor((v[n/2 - 1] + v[n/2]) / 2)` when `n` is even (and `0`
for an empty sequence). The ascending sort is taken here to be
`List.mergeSort`, an algorithm different from the one used in the embedding
of the source. -/
def specMedian (amounts : List Nat) : Nat :=
  let v := amounts.mergeSort ((· ≤ ·) · ·)
  let n := v.length
  if n = 0 then 0
  else if n % 2 = 1 then v.getD (n / 2) 0
  else (v.getD (n / 2 - 1) 0 + v.getD (n / 2) 0) / 2

/-- The median read off an already sorted value list by the index formulas
shared by the source and the spec. -/
def medianFromSorted (v : List Nat) : Nat :=
  if v.length = 0 then 0
  else if v.length % 2 = 1 then v.getD (v.length / 2) 0
  else (v.getD (v.length / 2 - 1) 0 + v.getD (v.length / 2) 0) / 2

/-- A sample legacy-shape tip with a present `(finder, deposit)` pair and
three contributions, used to instantiate the theorems below. -/
def sampleLegacyTip : TipRecord :=
  .legacy { who := "wanda", reason := "deadbeef", closes := some 5,
            finder := some ("fred", 7),
            tips := [("alice", 10), ("bob", 30), ("carol", 20)] }

/-- A sample local account list containing a tipper and the finder. -/
def sampleAccounts : List String :=
  ["alice", "fred"]

/-- The state `extractTipState` derives from `sampleLegacyTip` and
`sampleAccounts`. -/
def sampleState : TipState :=
  { closesAt := some 5, deposit := some 7, finder := some "fred",
    isFinder := true, isTipped := true, isTipper := true, median := 20 }

/-- The state `extractTipState` derives from `sampleLegacyTip` and an empty
account list. -/
def sampleStateNoAccts : TipState :=
  { closesAt := some 5, deposit := some 7, finder := some "fred",
    isFinder := false, isTipped := true, isTipper := false, median := 20 }

/-- A sample legacy-shape tip with no finder and no contributions. -/
def sampleEmptyTip : TipRecord :=
  .legacy { who := "wanda", reason := "deadbeef", closes := none,
            finder := none, tips := [] }

/-- The state `extractTipState` derives from `sampleEmptyTip` and an empty
account list. -/
def sampleEmptyState : TipState :=
  { closesAt := none, deposit := none, finder := none,
    isFinder := false, isTipped := false, isTipper := false, median := 0 }

/-- A sample tip with contribution amounts `[2, 1]`. -/
def samplePermTipA : TipRecord :=
  .legacy { who := "wanda", reason := "deadbeef", closes := none,
            finder := none, tips := [("alice", 2), ("bob", 1)] }

/-- A sample tip with the same amount multiset as `samplePermTipA` but other
contributors and the amounts in the other order. -/
def samplePermTipB : TipRecord :=
  .legacy { who := "wanda", reason := "deadbeef", closes := none,
            finder := none, tips := [("carol", 1), ("dave", 2)] }

/-- The state `extractTipState` derives from `samplePermTipA` (and equally
from `samplePermTipB`) with an empty account list. -/
def sampleEvenState : TipState :=
  { closesAt := none, deposit := none, finder := none,
    isFinder := false, isTipped := true, isTipper := false, median := 1 }

theorem jsSortAsc_length (l : List Nat) : (jsSortAsc l).length = l.length :=
  List.length_insertionSort _ l

theorem jsIndex_natCast (xs : List Nat) (n : Nat) (h : n < xs.length) :
    jsIndex xs (n : Int) = some (xs.getD n 0) := by
  unfold jsIndex
  simp only [Int.toNat_natCast]
  rw [dif_pos ⟨Int.natCast_nonneg n, h⟩]
  simp only [List.get_eq_getElem, List.getD_eq_getElem _ _ h]

theorem computeMedian_eq (amounts : List Nat) :
    computeMedian amounts = some (medianFromSorted (jsSortAsc amounts)) := by
  unfold computeMedian medianFromSorted
  by_cases h0 : (jsSortAsc amounts).length = 0
  · simp [h0]
  · have hpos : 0 < (jsSortAsc amounts).length := Nat.pos_of_ne_zero h0
    by_cases h1 : (jsSortAsc amounts).length % 2 = 1
    · have hm : (jsSortAsc amounts).length / 2 < (jsSortAsc amounts).length := by omega
      simp only [if_neg (by omega : ¬(jsSortAsc amounts).length = 0),
        if_pos (by omega : (jsSortAsc amounts).length ≠ 0),
        if_pos (by omega : (jsSortAsc amounts).length % 2 ≠ 0),
        if_pos h1]
      exact jsIndex_natCast _ _ hm
    · have heven : (jsSortAsc amounts).length % 2 = 0 := by omega
      have h2 : 2 ≤ (jsSortAsc amounts).length := by omega
      have hm : (jsSortAsc amounts).length / 2 < (jsSortAsc amounts).length := by omega
      have hm1 : (jsSortAsc amounts).length / 2 - 1 < (jsSortAsc amounts).length := by omega
      have hmid1 : (((jsSortAsc amounts).length / 2 : Nat) : Int) - 1 =
          (((jsSortAsc amounts).length / 2 - 1 : Nat) : Int) := by omega
      simp only [if_neg (by omega : ¬(jsSortAsc amounts).length = 0),
        if_pos (by omega : (jsSortAsc amounts).length ≠ 0),
        if_neg (by omega : ¬(jsSortAsc amounts).length % 2 ≠ 0),
        if_neg h1, hmid1, jsIndex_natCast _ _ hm, jsIndex_natCast _ _ hm1]

theorem extractTipState_eq (tip : TipRecord) (allAccounts : List String) :
    extractTipState tip allAccounts = some {
      closesAt := tip.closes
      deposit := (extractFinderDeposit tip).2
      finder := (extractFinderDeposit tip).1
      isFinder :=
        match (extractFinderDeposit tip).1 with
        | some f => allAccounts.contains f
        | none => false
      isTipped := (jsSortAsc (tip.tips.map fun p => p.2)).length != 0
      isTipper := tip.tips.any fun p => allAccounts.contains p.1
      median := medianFromSorted (jsSortAsc (tip.tips.map fun p => p.2)) } := by
  unfold extractTipState
  rw [computeMedian_eq]

theorem jsSortAsc_sorted (l : List Nat) : (jsSortAsc l).Sorted (· ≤ ·) :=
  List.sorted_insertionSort _ l

theorem jsSortAsc_perm (l : List Nat) : (jsSortAsc l).Perm l :=
  List.perm_insertionSort _ l

theorem jsSortAsc_congr_perm {l1 l2 : List Nat} (h : l1.Perm l2) :
    jsSortAsc l1 = jsSortAsc l2 :=
  List.eq_of_perm_of_sorted (((jsSortAsc_perm l1).trans h).trans (jsSortAsc_perm l2).symm)
    (jsSortAsc_sorted l1) (jsSortAsc_sorted l2)

theorem specMedian_eq_medianFromSorted (l : List Nat) :
    specMedian l = medianFromSorted (jsSortAsc l) := by
  unfold specMedian medianFromSorted jsSortAsc
  simp only [List.mergeSort_eq_insertionSort]

example : extractTipState sampleLegacyTip sampleAccounts = some sampleState := by decide

example : extractTipState sampleLegacyTip [] = some sampleStateNoAccts := by decide

example : extractTipState sampleEmptyTip [] = some sampleEmptyState := by decide

example : extractTipState samplePermTipA [] = some sampleEvenState := by decide

example : extractTipState samplePermTipB [] = some sampleEvenState := by decide

example : specMedian [10, 30, 20] = 20 := by
  rw [specMedian_eq_medianFromSorted]; decide

/-- Claim C1: for every tip record with a non-empty contribution sequence,
the median returned by `extractTipState` equals the standard median of the
multiset of contribution amounts — with the amounts sorted ascending into
`v` of length `n`, it is `v[n / 2]` for odd `n` and the floor of
`(v[n / 2 - 1] + v[n / 2]) / 2` for even `n` — computed in exact
arbitrary-precision integer arithmetic. -/
theorem extractTipState_median_is_specMedian (tip : TipRecord)
    (allAccounts : List String) (st : TipState) (hne : tip.tips ≠ [])
    (h : extractTipState tip allAccounts = some st) :
    st.median = specMedian (tip.tips.map fun p => p.2) := by
  rw [extractTipState_eq] at h
  injection h with h
  subst h
  rw [specMedian_eq_medianFromSorted]

/-- Witness for C1 at the sample legacy tip with amounts `[10, 30, 20]`. -/
theorem extractTipState_median_is_specMedian_witness :
    sampleLegacyTip.tips ≠ [] ∧
    extractTipState sampleLegacyTip sampleAccounts = some sampleState ∧
    sampleState.median = specMedian (sampleLegacyTip.tips.map fun p => p.2) :=
  ⟨by decide, by decide,
    extractTipState_median_is_specMedian sampleLegacyTip sampleAccounts
      sampleState (by decide) (by decide)⟩

/-- Claim C2: the finder and deposit of the returned state come from the
dedicated fields on the current shape, from the two components of the
unwrapped optional pair on the legacy shape when that optional is present,
and are both null when the legacy optional finder is absent. -/
theorem extractTipState_finder_deposit (tip : TipRecord)
    (allAccounts : List String) (st : TipState)
    (h : extractTipState tip allAccounts = some st) :
    (st.finder, st.deposit) =
      match tip with
      | .current t => (some t.finder, some t.deposit)
      | .legacy t =>
        match t.finder with
        | some finderInfo => (some finderInfo.1, some finderInfo.2)
        | none => (none, none) := by
  rw [extractTipState_eq] at h
  injection h with h
  subst h
  cases tip with
  | current t => rfl
  | legacy t =>
    obtain ⟨w, r, c, f, ts⟩ := t
    cases f with
    | none => rfl
    | some finderInfo => rfl

/-- Witness for C2 at a legacy tip whose optional pair is present. -/
theorem extractTipState_finder_deposit_witness :
    extractTipState sampleLegacyTip sampleAccounts = some sampleState ∧
    (sampleState.finder, sampleState.deposit) = (some "fred", some 7) :=
  ⟨by decide,
    (extractTipState_finder_deposit sampleLegacyTip sampleAccounts sampleState
      (by decide)).trans (by rfl)⟩

/-- Claim C3: `isFinder` is true iff the extracted finder is present and its
address is an element of the local account list; in every other case,
including a null finder, it is false. -/
theorem extractTipState_isFinder_iff (tip : TipRecord)
    (allAccounts : List String) (st : TipState)
    (h : extractTipState tip allAccounts = some st) :
    st.isFinder = true ↔ ∃ f, st.finder = some f ∧ f ∈ allAccounts := by
  rw [extractTipState_eq] at h
  injection h with h
  subst h
  cases hfd : (extractFinderDeposit tip).1 with
  | none => simp [hfd]
  | some f => simp [hfd]

/-- Witness for C3 at the sample legacy tip, whose finder is local. -/
theorem extractTipState_isFinder_iff_witness :
    extractTipState sampleLegacyTip sampleAccounts = some sampleState ∧
    (sampleState.isFinder = true ↔
      ∃ f, sampleState.finder = some f ∧ f ∈ sampleAccounts) :=
  ⟨by decide,
    extractTipState_isFinder_iff sampleLegacyTip sampleAccounts sampleState
      (by decide)⟩

/-- Claim C4: `isTipper` is true iff some contribution of the tip has an
account that is an element of the local account list. -/
theorem extractTipState_isTipper_iff (tip : TipRecord)
    (allAccounts : List String) (st : TipState)
    (h : extractTipState tip allAccounts = some st) :
    st.isTipper = true ↔ ∃ p ∈ tip.tips, p.1 ∈ allAccounts := by
  rw [extractTipState_eq] at h
  injection h with h
  subst h
  simp [List.any_eq_true]

/-- Witness for C4 at the sample legacy tip, one of whose tippers is local. -/
theorem extractTipState_isTipper_iff_witness :
    extractTipState sampleLegacyTip sampleAccounts = some sampleState ∧
    (sampleState.isTipper = true ↔
      ∃ p ∈ sampleLegacyTip.tips, p.1 ∈ sampleAccounts) :=
  ⟨by decide,
    extractTipState_isTipper_iff sampleLegacyTip sampleAccounts sampleState
      (by decide)⟩

/-- Claim C5: `isTipped` is true iff the contribution sequence is non-empty,
and the median of a tip with no contributions is `0`. -/
theorem extractTipState_isTipped_iff (tip : TipRecord)
    (allAccounts : List String) (st : TipState)
    (h : extractTipState tip allAccounts = some st) :
    (st.isTipped = true ↔ tip.tips ≠ []) ∧ (tip.tips = [] → st.median = 0) := by
  rw [extractTipState_eq] at h
  injection h with h
  subst h
  constructor
  · simp [jsSortAsc_length]
  · intro he
    show medianFromSorted (jsSortAsc (tip.tips.map fun p => p.2)) = 0
    rw [he]
    rfl

/-- Witness for C5 at the sample tip with no contributions. -/
theorem extractTipState_isTipped_iff_witness :
    extractTipState sampleEmptyTip [] = some sampleEmptyState ∧
    (sampleEmptyState.isTipped = true ↔ sampleEmptyTip.tips ≠ []) ∧
    (sampleEmptyTip.tips = [] → sampleEmptyState.median = 0) :=
  ⟨by decide,
    (extractTipState_isTipped_iff sampleEmptyTip [] sampleEmptyState (by decide)).1,
    (extractTipState_isTipped_iff sampleEmptyTip [] sampleEmptyState (by decide)).2⟩

/-- Claim C6: the median depends only on the multiset of contribution
amounts: whenever two tip records have permuted amount sequences — in
particular after permuting contributions or replacing the contributor
accounts while keeping the amounts — the returned medians agree, for any
account lists. -/
theorem extractTipState_median_perm_invariant (t1 t2 : TipRecord)
    (a1 a2 : List String) (s1 s2 : TipState)
    (hperm : (t1.tips.map fun p => p.2).Perm (t2.tips.map fun p => p.2))
    (h1 : extractTipState t1 a1 = some s1)
    (h2 : extractTipState t2 a2 = some s2) :
    s1.median = s2.median := by
  rw [extractTipState_eq] at h1 h2
  injection h1 with h1
  injection h2 with h2
  subst h1
  subst h2
  show medianFromSorted (jsSortAsc (t1.tips.map fun p => p.2)) =
    medianFromSorted (jsSortAsc (t2.tips.map fun p => p.2))
  rw [jsSortAsc_congr_perm hperm]

/-- Witness for C6 at two sample tips with amount multisets `[2, 1]` and
`[1, 2]` held by different contributors. -/
theorem extractTipState_median_perm_invariant_witness :
    (samplePermTipA.tips.map fun p => p.2).Perm
      (samplePermTipB.tips.map fun p => p.2) ∧
    extractTipState samplePermTipA [] = some sampleEvenState ∧
    extractTipState samplePermTipB [] = some sampleEvenState ∧
    sampleEvenState.median = sampleEvenState.median :=
  ⟨by decide, by decide, by decide,
    extractTipState_median_perm_invariant samplePermTipA samplePermTipB [] []
      sampleEvenState sampleEvenState (by decide) (by decide) (by decide)⟩

/-- Claim C7: `extractTipState` is a pure, deterministic function of its two
inputs: equal tip records and equal account lists give equal results (the
embedding is purely functional, so an invocation has no side effects and
leaves its inputs, including the order of the contribution sequence,
unchanged). -/
theorem extractTipState_deterministic (t1 t2 : TipRecord) (a1 a2 : List String)
    (ht : t1 = t2) (ha : a1 = a2) :
    extractTipState t1 a1 = extractTipState t2 a2 := by
  rw [ht, ha]

/-- Witness for C7 at the sample legacy tip. -/
theorem extractTipState_deterministic_witness :
    sampleLegacyTip = sampleLegacyTip ∧ sampleAccounts = sampleAccounts ∧
    extractTipState sampleLegacyTip sampleAccounts =
      extractTipState sampleLegacyTip sampleAccounts :=
  ⟨rfl, rfl,
    extractTipState_deterministic sampleLegacyTip sampleLegacyTip
      sampleAccounts sampleAccounts rfl rfl⟩

/-- Claim C8: `extractTipState` is total: on every tip record of either
shape and every account list (including empty contribution sequences and
empty account lists) it returns a state and never hits the embedded runtime
failure, so in particular every array index taken inside the median
computation — including `midIndex - 1` in the even-count branch — is within
bounds. -/
theorem extractTipState_total (tip : TipRecord) (allAccounts : List String) :
    ∃ st : TipState, extractTipState tip allAccounts = some st :=
  ⟨_, extractTipState_eq tip allAccounts⟩

/-- Claim C9: a tip record is classified as the current shape exactly when
its `findersFee` field is present, independently of which boolean the flag
wraps: with either flag value a current-shape record is classified current
and its finder and deposit are read from the dedicated fields, while a
legacy record is never classified current. -/
theorem isCurrentTip_presence_only :
    (∀ tip : TipRecord, isCurrentTip tip = tip.findersFeeField.isSome) ∧
    (∀ t : OpenTip, ∀ b : Bool,
      isCurrentTip (.current { t with findersFee := ⟨b⟩ }) = true ∧
      extractFinderDeposit (.current { t with findersFee := ⟨b⟩ }) =
        (some t.finder, some t.deposit)) ∧
    (∀ t : OpenTipTo225, isCurrentTip (.legacy t) = false) :=
  ⟨fun _ => rfl, fun _ _ => ⟨rfl, rfl⟩, fun _ => rfl⟩

/-- Claim C10: `closesAt` equals the content of the optional `closes` field
of the record (null when it is absent) and does not depend on the local
account list. -/
theorem extractTipState_closesAt (tip : TipRecord) (a1 a2 : List String)
    (s1 s2 : TipState) (h1 : extractTipState tip a1 = some s1)
    (h2 : extractTipState tip a2 = some s2) :
    s1.closesAt = tip.closes ∧ s1.closesAt = s2.closesAt := by
  rw [extractTipState_eq] at h1 h2
  injection h1 with h1
  injection h2 with h2
  subst h1
  subst h2
  exact ⟨rfl, rfl⟩

/-- Witness for C10 at the sample legacy tip with two account lists. -/
theorem extractTipState_closesAt_witness :
    extractTipState sampleLegacyTip sampleAccounts = some sampleState ∧
    extractTipState sampleLegacyTip [] = some sampleStateNoAccts ∧
    (sampleState.closesAt = sampleLegacyTip.closes ∧
      sampleState.closesAt = sampleStateNoAccts.closesAt) :=
  ⟨by decide, by decide,
    extractTipState_closesAt sampleLegacyTip sampleAccounts [] sampleState
      sampleStateNoAccts (by decide) (by decide)⟩
